import Mathlib

/-!
Shallow embedding of the `@gradecam/gridfs` convenience layer: the
`GridFSBucket` adapter (`src/util-plugin.ts`, second part), the
`pluginGridable` mongoose plugin (`src/request.ts`, second part, together
with the helpers `getFileIdPath` / `getFilename` from the first part of
`src/util-plugin.ts`), and the file-record schema methods from
`src/schema.ts`.

Object ids are modelled as `Nat`, byte buffers as `List Nat`, dates as
`Nat` timestamps.  The backing GridFS store of a bucket is a list of
stored files (file record plus content).  Fallible operations return
`Except MongoErr _`; a resolved promise is `.ok`, a rejected promise (or a
synchronous throw) is `.error` unless the distinction matters, in which
case a dedicated result type keeps the thrown case apart.
-/

set_option autoImplicit false

deriving instance DecidableEq for Except

namespace GridFS

/-- Model of a driver error (`mongodb.MongoError`): `message` is the
constructor argument; `code` and `errmsg` are the extra fields the code
assigns after construction. -/
structure MongoErr where
  message : String
  code : Nat := 0
  errmsg : String := ""
deriving DecidableEq, Repr

/-- `InvalidOptions` thrown by `GridFSBucket.createReadStream`
(util-plugin.ts lines 262-265). -/
def invalidReadOptsErr : MongoErr :=
  { message := "InvalidOptions", code := 400, errmsg := "_id or filename is required" }

/-- `InvalidOptions` thrown by `GridFSBucket.createWriteStream`
(util-plugin.ts lines 277-282). -/
def invalidWriteOptsErr : MongoErr :=
  { message := "InvalidOptions", code := 400, errmsg := "filename is required" }

/-- `NotConnected` thrown by `GridFSBucket.createFromCollection`
(util-plugin.ts lines 227-232). -/
def notConnectedErr (collectionName : String) : MongoErr :=
  { message := "NotConnected", code := 500
    errmsg := "No database connection for " ++ collectionName }

/-- Duplicate-key error surfaced by the storage layer when a write reuses
an `_id` already present in the files collection (external driver
behaviour; the repo's own test expects code 11000 and a message starting
with `E11000 duplicate key error dup key` that mentions the id). -/
def dupKeyErr (fid : Nat) : MongoErr :=
  { message := "E11000 duplicate key error dup key: " ++ toString fid, code := 11000 }

/-- `FileNotFound` error surfaced by the driver's `delete` when no file
record matches the id (external driver behaviour). -/
def fileNotFoundErr (fid : Nat) : MongoErr :=
  { message := "FileNotFound: file id " ++ toString fid ++ " was not found" }

/-- JavaScript `String.prototype.trim`, implemented over the string's
character list (dropping leading and trailing whitespace) so that proofs
can evaluate it on concrete inputs. -/
def jsTrim (s : String) : String :=
  ⟨(((s.data.dropWhile Char.isWhitespace).reverse.dropWhile Char.isWhitespace).reverse)⟩

/-- JavaScript `x || d` for an optional string: absent and `''` both fall
back to the default. -/
def jsOrDefault (o : Option String) (d : String) : String :=
  match o with
  | some s => if s = "" then d else s
  | none => d

/-- `mongodb.ReadPreference` modes. -/
inductive ReadPref where
  | primary
  | primaryPreferred
  | secondary
  | secondaryPreferred
  | nearest
deriving DecidableEq, Repr

/-- `mongodb.GridFSBucketOptions` (the fields this code touches). -/
structure GridFSBucketOptions where
  bucketName : Option String := none
  chunkSizeBytes : Option Nat := none
  readPreference : Option ReadPref := none
deriving DecidableEq, Repr

/-- The enhanced `GridFSBucket` (util-plugin.ts lines 149-157): the
database handle is a `Nat` token. -/
structure GridFSBucket where
  bucketName : String
  db : Nat
  readPreference : Option ReadPref := none
  chunkSizeBytes : Option Nat := none
deriving DecidableEq, Repr

/-- `new GridFSBucket(db, options)` (util-plugin.ts lines 153-157):
`options.bucketName = options.bucketName || DEFAULT_BUCKET_NAME` with
`DEFAULT_BUCKET_NAME = 'fs'`. -/
def mkGridFSBucket (db : Nat) (options : GridFSBucketOptions) : GridFSBucket :=
  { bucketName := jsOrDefault options.bucketName "fs"
    db := db
    readPreference := options.readPreference
    chunkSizeBytes := options.chunkSizeBytes }

/-- `GridFSBucket.collectionName` getter (util-plugin.ts lines 240-242). -/
def GridFSBucket.collectionName (b : GridFSBucket) : String :=
  b.bucketName ++ ".files"

/-- A mongoose connection handle: carries an optional database handle. -/
structure ConnHandle where
  db : Option Nat := none
deriving DecidableEq, Repr

/-- A mongoose `Collection`: its name and (optional) connection. -/
structure Collection where
  collectionName : String
  conn : Option ConnHandle := none
deriving DecidableEq, Repr

/-- `CreateFromCollectionOpts` (util-plugin.ts lines 392-394). -/
structure CreateFromCollectionOpts extends GridFSBucketOptions where
  bucketNameFromCollection : Option Bool := none
deriving DecidableEq, Repr

/-- `GridFSBucket.createFromCollection` (util-plugin.ts lines 221-234):
optionally takes the bucket name from the collection, defaults the read
preference to primary-preferred when the `readPreference` key is absent
from the options, throws `NotConnected` when `coll.conn && coll.conn.db`
is falsy, and otherwise constructs the bucket. -/
def createFromCollection (coll : Collection) (opts : CreateFromCollectionOpts) :
    Except MongoErr GridFSBucket :=
  let bucketOpts : GridFSBucketOptions :=
    { opts.toGridFSBucketOptions with
      bucketName :=
        if opts.bucketNameFromCollection.getD false then some coll.collectionName
        else opts.bucketName }
  let bucketOpts :=
    if opts.readPreference.isSome then bucketOpts
    else { bucketOpts with readPreference := some ReadPref.primaryPreferred }
  match coll.conn with
  | none => .error (notConnectedErr coll.collectionName)
  | some c =>
    match c.db with
    | none => .error (notConnectedErr coll.collectionName)
    | some db => .ok (mkGridFSBucket db bucketOpts)

/-- The database handle (if any) reachable from a collection, i.e. the
JavaScript truthiness of `coll.conn && coll.conn.db`. -/
def Collection.liveDb (coll : Collection) : Option Nat :=
  coll.conn.bind (fun c => c.db)

/-- `mongodb.GridFSBucketOpenUploadStreamOptions` (the fields this code
forwards). -/
structure UploadStreamOpts where
  chunkSizeBytes : Option Nat := none
  metadata : List (String × String) := []
  contentType : Option String := none
  aliases : Option (List String) := none
deriving DecidableEq, Repr

/-- `WriteFileOpts` (util-plugin.ts lines 436-445): upload options plus a
required `filename` and an optional `_id`. -/
structure WriteFileOpts extends UploadStreamOpts where
  filename : String
  _id : Option Nat := none
deriving DecidableEq, Repr

/-- A `mongodb.GridFSBucketWriteStream`: its `id` property holds the
file's `_id`; the upload options travel with it. -/
structure WriteStream where
  id : Nat
  filename : String
  options : UploadStreamOpts
deriving DecidableEq, Repr

/-- How a read stream selects its file: by `_id`, or by `filename` with an
optional revision. -/
inductive ReadSel where
  | byId (fid : Nat)
  | byName (filename : String) (revision : Option Int)
deriving DecidableEq, Repr

/-- A `mongodb.GridFSBucketReadStream`: the selection plus the byte range.
(`endPos` models the source's `end` option, a reserved word in Lean.) -/
structure ReadStream where
  sel : ReadSel
  start : Option Nat := none
  endPos : Option Nat := none
deriving DecidableEq, Repr

/-- `ReadFileOpts` (util-plugin.ts lines 399-431) flattened: optional
`_id`, optional `filename` with `revision`, and the byte range. -/
structure ReadFileOpts where
  _id : Option Nat := none
  filename : Option String := none
  revision : Option Int := none
  start : Option Nat := none
  endPos : Option Nat := none
deriving DecidableEq, Repr

/-- `GridFSBucket.createReadStream` (util-plugin.ts lines 252-266): a
truthy `_id` wins, then a truthy (non-empty) `filename`; otherwise throws
`InvalidOptions`. -/
def createReadStream (opts : ReadFileOpts) : Except MongoErr ReadStream :=
  match opts._id with
  | some fid => .ok { sel := .byId fid, start := opts.start, endPos := opts.endPos }
  | none =>
    match opts.filename with
    | some fn =>
      if fn = "" then .error invalidReadOptsErr
      else .ok { sel := .byName fn opts.revision, start := opts.start, endPos := opts.endPos }
    | none => .error invalidReadOptsErr

/-- `GridFSBucket.createWriteStream` (util-plugin.ts lines 274-285):
defaults `_id` to a freshly generated ObjectId (`fresh`), throws
`InvalidOptions` on a falsy filename, otherwise opens the upload stream
with the chosen id. -/
def createWriteStream (fresh : Nat) (opts : WriteFileOpts) : Except MongoErr WriteStream :=
  let chosen := opts._id.getD fresh
  if opts.filename = "" then .error invalidWriteOptsErr
  else .ok { id := chosen, filename := opts.filename, options := opts.toUploadStreamOpts }

/-- A file record in the `<bucketName>.files` collection
(util-plugin.ts lines 371-390). -/
structure BucketFile where
  _id : Nat
  filename : String
  length : Nat
  chunkSize : Nat
  metadata : List (String × String) := []
  uploadDate : Nat
  aliases : Option (List String) := none
  contentType : Option String := none
  md5 : Option String := none
deriving DecidableEq, Repr

/-- A stored file: its record together with its chunk data, flattened to
the byte content. -/
structure StoredFile where
  file : BucketFile
  content : List Nat
deriving DecidableEq, Repr

/-- The backing GridFS store of one bucket. -/
abbrev Store := List StoredFile

/-- Whether the store holds a file record with the given `_id`. -/
def storeHasId (store : Store) (fid : Nat) : Bool :=
  store.any (fun sf => sf.file._id == fid)

/-- The storage driver's upload-stream commit (external `mongodb`
behaviour): flushing a write stream inserts a file record; reusing an
`_id` already present violates the files collection's unique `_id` index
and surfaces the driver's duplicate-key error verbatim.  `chunkSize`
defaults to the driver's 255 KiB when no `chunkSizeBytes` was given. -/
def commitWrite (store : Store) (ws : WriteStream) (bytes : List Nat) (now : Nat) :
    Except MongoErr (Store × BucketFile) :=
  if storeHasId store ws.id then .error (dupKeyErr ws.id)
  else
    let f : BucketFile :=
      { _id := ws.id
        filename := ws.filename
        length := bytes.length
        chunkSize := ws.options.chunkSizeBytes.getD 261120
        metadata := ws.options.metadata
        uploadDate := now
        aliases := ws.options.aliases
        contentType := ws.options.contentType }
    .ok (store ++ [⟨f, bytes⟩], f)

/-- A source of file content.  Modelled from the spec: `writeData`
(exported by the repo's `bucket` module, whose implementation is not under
`src/`) accepts either a `Buffer` or a readable stream and delivers its
bytes into the write stream; both forms carry the same byte content. -/
inductive Source where
  | buffer (bytes : List Nat)
  | stream (bytes : List Nat)
deriving DecidableEq, Repr

/-- The bytes a source delivers. -/
def Source.bytes : Source → List Nat
  | .buffer bs => bs
  | .stream bs => bs

/-- `GridFSBucket.writeFile` (util-plugin.ts lines 342-349): opens the
write stream (a synchronous `InvalidOptions` throw surfaces as `.error`),
pipes the source into it, rejects with the write stream's error and
resolves with the flushed file record on `finish`. -/
def writeFile (store : Store) (fresh now : Nat) (opts : WriteFileOpts) (src : Source) :
    Except MongoErr (Store × BucketFile) :=
  match createWriteStream fresh opts with
  | .error e => .error e
  | .ok ws => commitWrite store ws src.bytes now

/-- The events a `GridFSBucketWriteStream` can deliver to the handlers
`writeFile` registers: an `error` event or a `finish` event carrying the
file record. -/
inductive WriteOutcome where
  | werror (e : MongoErr)
  | wfinish (f : BucketFile)
deriving DecidableEq, Repr

/-- The observable fate of one `writeFile` call: a synchronous throw
(before any promise exists), or a settled promise. -/
inductive WritePromise where
  | thrown (e : MongoErr)
  | settled (r : Except MongoErr BucketFile)
deriving DecidableEq, Repr

/-- `GridFSBucket.writeFile` as a wrapper over the write stream's events
(util-plugin.ts lines 342-349): `createWriteStream` runs before the
promise is constructed, so its `InvalidOptions` is thrown synchronously;
afterwards the only registered handlers are `writeStream.on('error',
reject)` and `writeStream.on('finish', resolve)`. -/
def writeFileWrap (fresh : Nat) (opts : WriteFileOpts) (out : WriteOutcome) : WritePromise :=
  match createWriteStream fresh opts with
  | .error e => .thrown e
  | .ok _ =>
    match out with
    | .werror e => .settled (.error e)
    | .wfinish f => .settled (.ok f)

/-- Insert keeping the list sorted by ascending `uploadDate`. -/
def insertByDate (x : StoredFile) : List StoredFile → List StoredFile
  | [] => [x]
  | y :: ys =>
    if y.file.uploadDate ≤ x.file.uploadDate then y :: insertByDate x ys
    else x :: y :: ys

/-- Sort stored files by ascending `uploadDate` (the driver's revision
order for files sharing a filename). -/
def sortByDate (l : List StoredFile) : List StoredFile :=
  l.foldr insertByDate []

/-- The driver's file selection for a download stream: by `_id`, or by
filename picking the revision (0 the oldest, -1 the newest; the default is
-1). -/
def selectFile (store : Store) : ReadSel → Option StoredFile
  | .byId fid => store.find? (fun sf => sf.file._id == fid)
  | .byName fn rev =>
    let ms := sortByDate (store.filter (fun sf => sf.file.filename == fn))
    let r := rev.getD (-1)
    let idx : Int := if 0 ≤ r then r else (ms.length : Int) + r
    if idx < 0 then none else ms.get? idx.toNat

/-- Apply the `start` (inclusive) / `end` (exclusive) byte range of a read
stream. -/
def sliceRange (bs : List Nat) (start endPos : Option Nat) : List Nat :=
  (bs.take (endPos.getD bs.length)).drop (start.getD 0)

/-- What `stream.read()` yields for a download stream over this store:
the selected file's ranged bytes, or `null` (`none`) when the selection
matches nothing (the stream errors instead of delivering data). -/
def streamRead (store : Store) (rs : ReadStream) : Option (List Nat) :=
  (selectFile store rs.sel).map (fun sf => sliceRange sf.content rs.start rs.endPos)

/-- `GridFSBucket.readFile` (util-plugin.ts lines 355-364): rejects when
`createReadStream` throws synchronously; otherwise resolves with
`stream.read()` — no handler is attached to the stream. -/
def readFile (store : Store) (opts : ReadFileOpts) : Except MongoErr (Option (List Nat)) :=
  match createReadStream opts with
  | .error e => .error e
  | .ok rs => .ok (streamRead store rs)

/-- The state a read stream can be in by the time `readFile`'s deferred
`stream.read()` runs: data available, or an emitted stream-level error
(after which `read()` yields `null`). -/
inductive ReadOutcome where
  | avail (bytes : List Nat)
  | errored (e : MongoErr)
deriving DecidableEq, Repr

/-- `GridFSBucket.readFile` as a wrapper over the stream's outcome
(util-plugin.ts lines 355-364): the `try`/`catch` only captures the
synchronous `createReadStream` throw; the promise then resolves with
`stream.read()` regardless of the stream's own events. -/
def readFileWrap (opts : ReadFileOpts) (out : ReadOutcome) : Except MongoErr (Option (List Nat)) :=
  match createReadStream opts with
  | .error e => .error e
  | .ok _ =>
    .ok (match out with
      | .avail bs => some bs
      | .errored _ => none)

/-- Remove every file record (and its chunks) with the given `_id`
(external driver `delete`). -/
def removeId (store : Store) (fid : Nat) : Store :=
  store.filter (fun sf => !(sf.file._id == fid))

/-- `GridFSBucket.deleteById` (util-plugin.ts lines 307-311): promisifies
the driver's `delete`, resolving with the `_id` it was given; the driver
errors when no file record matches. -/
def deleteById (store : Store) (fid : Nat) : Except MongoErr (Store × Nat) :=
  if storeHasId store fid then .ok (removeId store fid, fid)
  else .error (fileNotFoundErr fid)

/-- `GridFSBucket.unlink` (util-plugin.ts lines 334-335): alias to
`deleteById`. -/
def unlink (store : Store) (fid : Nat) : Except MongoErr (Store × Nat) :=
  deleteById store fid

/-- `mongodb.GridFSBucketFindOptions` (the cursor-shaping fields): a
`limit` of 0 means no limit in the driver. -/
structure FindOpts where
  limit : Option Nat := none
  skip : Option Nat := none
deriving DecidableEq, Repr

/-- Apply find options to a result list (driver cursor behaviour). -/
def applyFindOpts (opts : FindOpts) (l : List StoredFile) : List StoredFile :=
  let l1 := l.drop (opts.skip.getD 0)
  match opts.limit with
  | none => l1
  | some 0 => l1
  | some n => l1.take n

/-- `this.find({filename}, opts)` (external driver): the file records
matching the filename, shaped by the find options. -/
def bucketFind (store : Store) (filename : String) (opts : FindOpts) : List StoredFile :=
  applyFindOpts opts (store.filter (fun sf => sf.file.filename == filename))

/-- The `while ((file = await cursor.next()))` loop of
`GridFSBucket.deleteByFilename` (util-plugin.ts lines 295-299): delete
each cursor result by its `_id`, pushing the resolved id; the first
failing delete aborts the loop. -/
def delLoop : List StoredFile → Store → Except MongoErr (Store × List Nat)
  | [], store => .ok (store, [])
  | c :: cs, store =>
    match deleteById store c.file._id with
    | .error e => .error e
    | .ok (store', fid) =>
      match delLoop cs store' with
      | .error e => .error e
      | .ok (store'', fids) => .ok (store'', fid :: fids)

/-- `GridFSBucket.deleteByFilename` (util-plugin.ts lines 292-301):
iterate the cursor of records matching the filename and delete each,
resolving with the list of deleted ids. -/
def deleteByFilename (store : Store) (filename : String) (opts : FindOpts) :
    Except MongoErr (Store × List Nat) :=
  delLoop (bucketFind store filename opts) store

/-- A value stored in a document field: an ObjectId or a string. -/
inductive DVal where
  | oid (n : Nat)
  | str (s : String)
deriving DecidableEq, Repr

/-- A mongoose document as the plugin sees it: its `_id`, the paths its
schema declares (mongoose adds `_id` automatically), and its current field
values. -/
structure Doc where
  _id : Nat
  schemaPaths : List String
  fields : List (String × DVal) := []
deriving DecidableEq, Repr

/-- `doc.get(path)`. -/
def Doc.get (doc : Doc) (path : String) : Option DVal :=
  (doc.fields.find? (fun kv => kv.1 == path)).map (fun kv => kv.2)

/-- `doc.get(path) as string || ''`: the field's string value, `''` when
absent. -/
def Doc.getStr (doc : Doc) (path : String) : String :=
  match doc.get path with
  | some (.str s) => s
  | _ => ""

/-- `doc.set(path, value)`. -/
def Doc.set (doc : Doc) (path : String) (v : DVal) : Doc :=
  { doc with
    fields := (path, v) :: doc.fields.filter (fun kv => !(kv.1 == path)) }

/-- The `filename` plugin option: a field path or a function of the
document (`string | Fn`). -/
inductive FilenameOpt where
  | path (s : String)
  | fn (f : Doc → String)

/-- The `bucketName` plugin option: a literal or a function of the
document (`string | Fn`). -/
inductive BucketNameOpt where
  | lit (s : String)
  | fn (f : Doc → String)

/-- `PluginOpts` (util-plugin.ts lines 9-39). -/
structure PluginOpts where
  bucketOpts : Option GridFSBucketOptions := none
  bucketName : Option BucketNameOpt := none
  fileId : Option String := none
  filename : Option FilenameOpt := none

/-- `getFileIdPath` (util-plugin.ts lines 95-101): the configured (or
default `'fileId'`) path if the document's schema declares it, else `''`. -/
def getFileIdPath (doc : Doc) (opts : PluginOpts) : String :=
  let idPath := jsOrDefault opts.fileId "fileId"
  if idPath ∈ doc.schemaPaths then idPath else ""

/-- The field path `getFilename` consults when the `filename` option is
not a function: `opts.filename || 'filename'`. -/
def filenameFieldPath (opts : PluginOpts) : String :=
  match opts.filename with
  | some (.path s) => if s = "" then "filename" else s
  | _ => "filename"

/-- `getFilename` (util-plugin.ts lines 108-118): the configured
function's trimmed result; otherwise the configured (or default
`'filename'`) field's trimmed value when the schema declares that path;
otherwise the synthesized `` `${doc._id}.file` ``. -/
def getFilename (doc : Doc) (opts : PluginOpts) : String :=
  match opts.filename with
  | some (.fn f) => jsTrim (f doc)
  | _ =>
    if filenameFieldPath opts ∈ doc.schemaPaths then jsTrim (doc.getStr (filenameFieldPath opts))
    else toString doc._id ++ ".file"

/-- The option normalization at the top of `pluginGridable`
(request.ts line 45): `Object.assign({filename: 'filename'}, pluginOpts,
{bucketOpts})`. -/
def normalizePluginOpts (opts : PluginOpts) : PluginOpts :=
  { opts with filename := some (opts.filename.getD (.path "filename")) }

/-- `schema.methods.getGridFSFilename` (request.ts lines 80-82):
`getFilename(this, pluginOpts)` over the normalized plugin options. -/
def getGridFSFilename (doc : Doc) (opts : PluginOpts) : String :=
  getFilename doc (normalizePluginOpts opts)

/-- `schema.methods.createWriteStream` of `pluginGridable` (request.ts
lines 59-64): filename from `getFilename`, merged with the caller's upload
options; when the `fileId` option is exactly `'_id'` the document's own id
becomes the file id. -/
def docCreateWriteStream (doc : Doc) (opts : PluginOpts) (uopts : UploadStreamOpts)
    (fresh : Nat) : Except MongoErr WriteStream :=
  let nopts := normalizePluginOpts opts
  let writeOpts : WriteFileOpts :=
    { toUploadStreamOpts := uopts
      filename := getFilename doc nopts
      _id := if nopts.fileId = some "_id" then some doc._id else none }
  createWriteStream fresh writeOpts

/-- Modelled from the spec: `writeData(writeStream, data)` (exported by
the repo's `bucket` module, whose implementation is not under `src/`)
pipes a source — buffer or stream — into the write stream, resolving with
the flushed file record on completion and rejecting on a stream error. -/
def writeData (store : Store) (ws : WriteStream) (data : Source) (now : Nat) :
    Except MongoErr (Store × BucketFile) :=
  commitWrite store ws data.bytes now

/-- The collection of plugin documents; `save` upserts by `_id`. -/
abbrev DocStore := List Doc

/-- `this.save()`: persist the document, replacing any stored version with
the same `_id` (modelled as field-preserving persistence; the mapping
framework's own middleware is an external collaborator). -/
def saveDoc (docs : DocStore) (doc : Doc) : DocStore :=
  if docs.any (fun d => d._id == doc._id)
  then docs.map (fun d => if d._id == doc._id then doc else d)
  else docs ++ [doc]

/-- `schema.methods.write` of `pluginGridable` (request.ts lines 70-79):
create the write stream, `writeData` the source, then — unless the fileId
path is the document's own `'_id'` — set that path to the new file's id,
and save the document. -/
def docWrite (store : Store) (docs : DocStore) (doc : Doc) (opts : PluginOpts)
    (data : Source) (uopts : UploadStreamOpts) (fresh now : Nat) :
    Except MongoErr (Store × DocStore × Doc) :=
  match docCreateWriteStream doc opts uopts fresh with
  | .error e => .error e
  | .ok ws =>
    match writeData store ws data now with
    | .error e => .error e
    | .ok (store', file) =>
      let nopts := normalizePluginOpts opts
      let fileIdPath := getFileIdPath doc nopts
      let doc' := if fileIdPath ≠ "_id" then doc.set fileIdPath (.oid file._id) else doc
      .ok (store', saveDoc docs doc', doc')

/-- A file-record document of `createFileSchema` (schema.ts lines
106-116): the schema's own fields plus the mongoose `isNew` flag (not a
schema field). -/
structure FileDoc where
  _id : Nat
  filename : String
  length : Option Nat := none
  chunkSize : Option Nat := none
  uploadDate : Option Nat := none
  metadata : List (String × String) := []
  aliases : Option (List String) := none
  contentType : Option String := none
  md5 : Option String := none
  isNew : Bool := true
deriving DecidableEq, Repr

/-- `schema.methods.createWriteStream` (schema.ts lines 122-132): write
options drawn from the document's own fields, the document's `_id`
included. -/
def fileDocCreateWriteStream (doc : FileDoc) (fresh : Nat) : Except MongoErr WriteStream :=
  let writeOpts : WriteFileOpts :=
    { _id := some doc._id
      filename := doc.filename
      chunkSizeBytes := doc.chunkSize
      contentType := doc.contentType
      metadata := doc.metadata
      aliases := doc.aliases }
  createWriteStream fresh writeOpts

/-- `schema.methods.write` (schema.ts lines 151-167): pipe the incoming
stream into the document's write stream; reject on the stream's error; on
`finish` copy `length`, `chunkSize` and `uploadDate` from the flushed file
record onto the document, clear `isNew`, and save it. -/
def fileDocWrite (store : Store) (doc : FileDoc) (bytes : List Nat) (fresh now : Nat) :
    Except MongoErr (Store × FileDoc) :=
  match fileDocCreateWriteStream doc fresh with
  | .error e => .error e
  | .ok ws =>
    match commitWrite store ws bytes now with
    | .error e => .error e
    | .ok (store', file) =>
      let doc' :=
        { doc with
          length := some file.length
          chunkSize := some file.chunkSize
          uploadDate := some file.uploadDate
          isNew := false }
      .ok (store', doc')

/-- `schema.methods.deleteById` (schema.ts lines 134-136): delete the
document's own `_id` from the bucket. -/
def fileDocDeleteById (store : Store) (doc : FileDoc) : Except MongoErr (Store × Nat) :=
  deleteById store doc._id

/-- `schema.methods.unlink = schema.methods.deleteById`
(schema.ts line 137). -/
def fileDocUnlink : Store → FileDoc → Except MongoErr (Store × Nat) :=
  fileDocDeleteById

/-- Whether the `filename` plugin option is a function. -/
def isFnFilename (opts : PluginOpts) : Bool :=
  match opts.filename with
  | some (.fn _) => true
  | _ => false

/-! ## Theorems -/

/-- C10: `GridFSBucket.unlink` performs the same operation with the same
result as `GridFSBucket.deleteById` on every store and identifier, and the
file-record document method `unlink` is the very same function as its
`deleteById` method, so the two names are interchangeable. -/
theorem c10_unlink_alias :
    (∀ (store : Store) (fid : Nat), unlink store fid = deleteById store fid)
    ∧ (∀ (store : Store) (doc : FileDoc), fileDocUnlink store doc = fileDocDeleteById store doc)
    ∧ fileDocUnlink = fileDocDeleteById :=
  ⟨fun _ _ => rfl, fun _ _ => rfl, rfl⟩

/-- C3: `createReadStream` throws `InvalidOptions` exactly when the
options hold neither a (truthy) `_id` nor a non-empty `filename`, and
otherwise returns a stream; `createWriteStream` throws `InvalidOptions`
exactly when the filename is absent/empty, otherwise returns a stream
whose id is the given `_id` or, when none was given, the freshly
synthesized one. -/
theorem c3_stream_option_errors (ropts : ReadFileOpts) (wopts : WriteFileOpts) (fresh : Nat) :
    ((∃ e, createReadStream ropts = .error e) ↔
      (ropts._id = none ∧ ropts.filename.getD "" = ""))
    ∧ (∀ e, createReadStream ropts = .error e → e = invalidReadOptsErr)
    ∧ ((ropts._id ≠ none ∨ ropts.filename.getD "" ≠ "") → ∃ rs, createReadStream ropts = .ok rs)
    ∧ ((∃ e, createWriteStream fresh wopts = .error e) ↔ wopts.filename = "")
    ∧ (∀ e, createWriteStream fresh wopts = .error e → e = invalidWriteOptsErr)
    ∧ (wopts.filename ≠ "" →
        ∃ ws, createWriteStream fresh wopts = .ok ws
          ∧ ws.id = wopts._id.getD fresh
          ∧ (wopts._id = none → ws.id = fresh)) := by
  refine ⟨?_, ?_, ?_, ?_, ?_, ?_⟩
  · cases hid : ropts._id with
    | some fid => simp [createReadStream, hid]
    | none =>
      cases hfn : ropts.filename with
      | none => simp [createReadStream, hid, hfn]
      | some fn =>
        by_cases he : fn = "" <;> simp [createReadStream, hid, hfn, he]
  · intro e he
    cases hid : ropts._id with
    | some fid => simp [createReadStream, hid] at he
    | none =>
      cases hfn : ropts.filename with
      | none => simp [createReadStream, hid, hfn] at he; exact he.symm
      | some fn =>
        by_cases hz : fn = "" <;> simp [createReadStream, hid, hfn, hz] at he
        exact he.symm
  · intro h
    cases hid : ropts._id with
    | some fid => simp [createReadStream, hid]
    | none =>
      cases hfn : ropts.filename with
      | none => simp [hid, hfn] at h
      | some fn =>
        have hz : ¬ fn = "" := by simpa [hid, hfn] using h
        simp [createReadStream, hid, hfn, hz]
  · by_cases hz : wopts.filename = "" <;> simp [createWriteStream, hz]
  · intro e he
    by_cases hz : wopts.filename = "" <;> simp [createWriteStream, hz] at he
    exact he.symm
  · intro hz
    simp only [createWriteStream, if_neg hz]
    refine ⟨_, rfl, rfl, ?_⟩
    intro hnone
    simp [hnone]

/-- C4: `createFromCollection` throws `NotConnected` (returning no bucket)
exactly on collections with no live database handle; on connected
collections it returns a bucket whose read preference is the explicitly
supplied one, defaulting to primary-preferred when the options carry
none. -/
theorem c4_create_from_collection (coll : Collection) (opts : CreateFromCollectionOpts) :
    (coll.liveDb = none →
      createFromCollection coll opts = .error (notConnectedErr coll.collectionName))
    ∧ (∀ db, coll.liveDb = some db →
        ∃ b, createFromCollection coll opts = .ok b
          ∧ b.readPreference = some (opts.readPreference.getD .primaryPreferred)
          ∧ (∀ rp, opts.readPreference = some rp → b.readPreference = some rp)) := by
  constructor
  · intro h
    cases hc : coll.conn with
    | none => simp [createFromCollection, hc]
    | some c =>
      cases hdb : c.db with
      | none => simp [createFromCollection, hc, hdb]
      | some db => simp [Collection.liveDb, hc, hdb] at h
  · intro db h
    cases hc : coll.conn with
    | none => simp [Collection.liveDb, hc] at h
    | some c =>
      cases hdb : c.db with
      | none => simp [Collection.liveDb, hc, hdb] at h
      | some db' =>
        simp [Collection.liveDb, hc, hdb] at h
        subst h
        cases hrp : opts.readPreference with
        | none => simp [createFromCollection, hc, hdb, hrp, mkGridFSBucket]
        | some rp => simp [createFromCollection, hc, hdb, hrp, mkGridFSBucket]

/-- C2 counterexample: a `readFile` call whose options are valid (`_id`
supplied) and whose underlying read stream emits a storage-driver error
resolves with `null` instead of rejecting with that error — the wrapper
registers no error handler, so the upstream stream-level error is not
forwarded as the rejection value. -/
theorem c2_read_error_swallowed_cex :
    readFileWrap { _id := some 1 } (.errored { message := "driver stream failure" }) = .ok none
    ∧ readFileWrap { _id := some 1 } (.errored { message := "driver stream failure" })
        ≠ .error { message := "driver stream failure" } := by
  constructor
  · rfl
  · decide

/-- C2 (amended): `writeFile` settles according to the write stream's
events — rejecting with the write stream's error forwarded unchanged and
resolving with the file on `finish` — while `readFile` rejects exactly the
errors `createReadStream` throws synchronously and otherwise resolves with
the stream's read result, resolving with `null` (not rejecting) when the
read stream emits a stream-level error. -/
theorem c2_settlement (ropts : ReadFileOpts) (wopts : WriteFileOpts) (fresh : Nat)
    (e : MongoErr) (f : BucketFile) (bs : List Nat) :
    (wopts.filename ≠ "" →
      writeFileWrap fresh wopts (.werror e) = .settled (.error e)
      ∧ writeFileWrap fresh wopts (.wfinish f) = .settled (.ok f))
    ∧ (∀ e', createReadStream ropts = .error e' →
        ∀ out, readFileWrap ropts out = .error e')
    ∧ (∀ rs, createReadStream ropts = .ok rs →
        readFileWrap ropts (.errored e) = .ok none
        ∧ readFileWrap ropts (.avail bs) = .ok (some bs)) := by
  refine ⟨?_, ?_, ?_⟩
  · intro hz
    constructor <;> simp [writeFileWrap, createWriteStream, hz]
  · intro e' he' out
    simp [readFileWrap, he']
  · intro rs hrs
    constructor <;> simp [readFileWrap, hrs]

/-- C7 counterexample: a referencing record whose schema declares the
default `filename` path but holds no value for it, with no filename
function configured, resolves its GridFS filename to `''` — not to the
synthesized `"<id>.file"` fallback the claim predicates whenever neither
source yields content. -/
theorem c7_empty_field_no_fallback_cex :
    getGridFSFilename { _id := 5, schemaPaths := ["_id", "filename"] } {} = ""
    ∧ getGridFSFilename { _id := 5, schemaPaths := ["_id", "filename"] } {}
        ≠ toString (5 : Nat) ++ ".file" := by
  constructor
  · rfl
  · decide

/-- C7 (amended): `getGridFSFilename` resolves the filename by evaluating
the configured filename function when one is given (its trimmed result,
even when empty); otherwise, when the configured (or default `'filename'`)
path is declared by the record's schema, by that field's trimmed current
value (the empty string when unset); the `"<id>.file"` fallback is
synthesized exactly when that path is not on the schema. -/
theorem c7_filename_resolution (doc : Doc) (opts : PluginOpts) :
    (∀ f, opts.filename = some (.fn f) → getGridFSFilename doc opts = jsTrim (f doc))
    ∧ (isFnFilename opts = false → filenameFieldPath opts ∈ doc.schemaPaths →
        getGridFSFilename doc opts = jsTrim (doc.getStr (filenameFieldPath opts)))
    ∧ (isFnFilename opts = false → filenameFieldPath opts ∉ doc.schemaPaths →
        getGridFSFilename doc opts = toString doc._id ++ ".file") := by
  refine ⟨?_, ?_, ?_⟩
  · intro f hf
    simp [getGridFSFilename, normalizePluginOpts, getFilename, hf]
  · intro hfn hmem
    match hf : opts.filename with
    | none =>
      have hmem' : "filename" ∈ doc.schemaPaths := by simpa [filenameFieldPath, hf] using hmem
      simp [getGridFSFilename, normalizePluginOpts, getFilename, hf, filenameFieldPath, hmem']
    | some (.path s) =>
      have hmem' := hmem
      simp [filenameFieldPath, hf] at hmem'
      by_cases hs : s = "" <;>
        simp [getGridFSFilename, normalizePluginOpts, getFilename, hf, filenameFieldPath, hs] <;>
        simp [hs] at hmem' <;> simp [hmem']
    | some (.fn f) => simp [isFnFilename, hf] at hfn
  · intro hfn hmem
    match hf : opts.filename with
    | none =>
      simp [filenameFieldPath, hf] at hmem
      simp [getGridFSFilename, normalizePluginOpts, getFilename, hf, filenameFieldPath, hmem]
    | some (.path s) =>
      have hmem' := hmem
      simp [filenameFieldPath, hf] at hmem'
      by_cases hs : s = "" <;>
        simp [getGridFSFilename, normalizePluginOpts, getFilename, hf, filenameFieldPath, hs] <;>
        simp [hs] at hmem' <;> simp [hmem']
    | some (.fn f) => simp [isFnFilename, hf] at hfn

/-- A store that has no record with the stream's id finds none when
searching for it. -/
theorem find?_id_none (store : Store) (fid : Nat) (h : storeHasId store fid = false) :
    store.find? (fun sf => sf.file._id == fid) = none := by
  rw [List.find?_eq_none]
  intro x hx
  have := (List.any_eq_false.mp h) x hx
  simpa using this

/-- C1: any content written through `writeFile` — from a buffer or from a
readable stream — is returned byte-identically by a subsequent `readFile`
by the returned file record's identifier. -/
theorem c1_write_read_roundtrip (store : Store) (opts : WriteFileOpts) (src : Source)
    (fresh now : Nat) (store' : Store) (f : BucketFile)
    (h : writeFile store fresh now opts src = .ok (store', f)) :
    readFile store' { _id := some f._id } = .ok (some src.bytes) := by
  unfold writeFile at h
  cases hcw : createWriteStream fresh opts with
  | error e => rw [hcw] at h; simp at h
  | ok ws =>
    rw [hcw] at h
    unfold commitWrite at h
    by_cases hdup : storeHasId store ws.id = true
    · simp [hdup] at h
    · rw [Bool.not_eq_true] at hdup
      simp only [hdup, Bool.false_eq_true, if_false, Except.ok.injEq, Prod.mk.injEq] at h
      obtain ⟨hs, hf⟩ := h
      subst hs
      subst hf
      simp only [readFile, createReadStream, streamRead, selectFile]
      rw [List.find?_append, find?_id_none store ws.id hdup]
      simp [sliceRange]

/-- C9: when a file-record document's `write` succeeds, the resulting
document has exactly its `length`, `chunkSize` and `uploadDate` fields set
to the stored file's values, while every other schema field (`_id`,
`filename`, `metadata`, `aliases`, `contentType`, `md5`) is unchanged. -/
theorem c9_write_frame (store : Store) (doc : FileDoc) (bytes : List Nat) (fresh now : Nat)
    (store' : Store) (doc' : FileDoc)
    (h : fileDocWrite store doc bytes fresh now = .ok (store', doc')) :
    ∃ sf, sf ∈ store' ∧ sf.file._id = doc._id ∧ sf.content = bytes
      ∧ doc'.length = some sf.file.length
      ∧ doc'.chunkSize = some sf.file.chunkSize
      ∧ doc'.uploadDate = some sf.file.uploadDate
      ∧ doc'._id = doc._id ∧ doc'.filename = doc.filename
      ∧ doc'.metadata = doc.metadata ∧ doc'.aliases = doc.aliases
      ∧ doc'.contentType = doc.contentType ∧ doc'.md5 = doc.md5 := by
  unfold fileDocWrite at h
  cases hcw : fileDocCreateWriteStream doc fresh with
  | error e => rw [hcw] at h; simp at h
  | ok ws =>
    rw [hcw] at h
    unfold commitWrite at h
    by_cases hdup : storeHasId store ws.id = true
    · simp [hdup] at h
    · rw [Bool.not_eq_true] at hdup
      simp only [hdup, Bool.false_eq_true, if_false, Except.ok.injEq, Prod.mk.injEq] at h
      obtain ⟨hs, hd⟩ := h
      subst hs
      subst hd
      have hws : ws.id = doc._id := by
        unfold fileDocCreateWriteStream createWriteStream at hcw
        by_cases hz : doc.filename = "" <;> simp [hz] at hcw
        rw [← hcw]
      refine ⟨_, List.mem_append_right _ (List.mem_singleton.mpr rfl), hws, rfl,
        rfl, rfl, rfl, rfl, rfl, rfl, rfl, rfl, rfl⟩

/-- Reading back the path just set yields the new value. -/
theorem Doc.get_set (doc : Doc) (p : String) (v : DVal) : (doc.set p v).get p = some v := by
  simp [Doc.get, Doc.set]

/-- A saved document is a member of the resulting document store. -/
theorem mem_map_update (docs : DocStore) (doc : Doc)
    (h : docs.any (fun d => d._id == doc._id) = true) :
    doc ∈ docs.map (fun d => if d._id == doc._id then doc else d) := by
  induction docs with
  | nil => simp at h
  | cons d ds ih =>
    by_cases hd : (d._id == doc._id) = true
    · rw [List.map_cons, if_pos hd]
      exact List.mem_cons_self _ _
    · simp only [List.any_cons, hd, Bool.false_or] at h
      rw [List.map_cons]
      exact List.mem_cons_of_mem _ (ih h)

/-- `save` leaves the saved document present in the document store. -/
theorem mem_saveDoc (docs : DocStore) (doc : Doc) : doc ∈ saveDoc docs doc := by
  unfold saveDoc
  by_cases hany : docs.any (fun d => d._id == doc._id) = true
  · simp only [hany, if_true]
    exact mem_map_update docs doc hany
  · simp only [hany, if_false, Bool.not_eq_true]
    simp

/-- The plugin's `createWriteStream` when the `fileId` option is exactly
`'_id'`: the document's own id becomes the file id. -/
theorem docCreateWriteStream_own_id (doc : Doc) (opts : PluginOpts) (uopts : UploadStreamOpts)
    (fresh : Nat) (hopt : opts.fileId = some "_id")
    (hname : getFilename doc (normalizePluginOpts opts) ≠ "") :
    docCreateWriteStream doc opts uopts fresh
      = .ok { id := doc._id, filename := getFilename doc (normalizePluginOpts opts)
              options := uopts } := by
  unfold docCreateWriteStream createWriteStream
  have : (normalizePluginOpts opts).fileId = some "_id" := hopt
  simp [this, hname]

/-- C6: on a referencing record configured with `fileId: '_id'` (the path
being on the schema), a successful `write` stores the file under the
record's own identifier and performs no reference-field update (the
record comes back unchanged); a second `write` on the same record then
fails with the storage layer's duplicate-key error — code 11000,
referencing that identifier. -/
theorem c6_fileid_id_reuse_collides (store : Store) (docs : DocStore) (doc : Doc)
    (opts : PluginOpts) (data data2 : Source) (uopts uopts2 : UploadStreamOpts)
    (fresh fresh2 now now2 : Nat)
    (hopt : opts.fileId = some "_id") (hschema : "_id" ∈ doc.schemaPaths)
    (hname : getFilename doc (normalizePluginOpts opts) ≠ "")
    (hfree : storeHasId store doc._id = false) :
    ∃ sf, docWrite store docs doc opts data uopts fresh now
        = .ok (store ++ [sf], saveDoc docs doc, doc)
      ∧ sf.file._id = doc._id ∧ sf.content = data.bytes
      ∧ docWrite (store ++ [sf]) (saveDoc docs doc) doc opts data2 uopts2 fresh2 now2
          = .error (dupKeyErr doc._id)
      ∧ (dupKeyErr doc._id).code = 11000
      ∧ (dupKeyErr doc._id).message
          = "E11000 duplicate key error dup key: " ++ toString doc._id := by
  have hid : getFileIdPath doc (normalizePluginOpts opts) = "_id" := by
    have : (normalizePluginOpts opts).fileId = some "_id" := hopt
    simp [getFileIdPath, this, jsOrDefault, hschema]
  refine ⟨{ file := { _id := doc._id, filename := getFilename doc (normalizePluginOpts opts),
                      length := data.bytes.length
                      chunkSize := uopts.chunkSizeBytes.getD 261120
                      metadata := uopts.metadata, uploadDate := now
                      aliases := uopts.aliases, contentType := uopts.contentType },
            content := data.bytes }, ?_, rfl, rfl, ?_, rfl, rfl⟩
  · unfold docWrite
    rw [docCreateWriteStream_own_id doc opts uopts fresh hopt hname]
    unfold writeData commitWrite
    simp only [hfree, Bool.false_eq_true, if_false, hid]
    simp
  · unfold docWrite
    rw [docCreateWriteStream_own_id doc opts uopts2 fresh2 hopt hname]
    unfold writeData commitWrite
    have hhas : storeHasId (store ++
        [{ file := { _id := doc._id, filename := getFilename doc (normalizePluginOpts opts),
                     length := data.bytes.length
                     chunkSize := uopts.chunkSizeBytes.getD 261120
                     metadata := uopts.metadata, uploadDate := now
                     aliases := uopts.aliases, contentType := uopts.contentType },
           content := data.bytes }]) doc._id = true := by
      simp [storeHasId]
    simp [hhas]

/-- C8: when the configured fileId path exists on the referencing record's
schema and is not the record's own `'_id'`, a successful `write` stores
the file's content in the bucket, sets that path to the newly stored
file's identifier, and persists the record. -/
theorem c8_write_sets_fileid_and_saves (store : Store) (docs : DocStore) (doc : Doc)
    (opts : PluginOpts) (data : Source) (uopts : UploadStreamOpts) (fresh now : Nat)
    (store' : Store) (docs' : DocStore) (doc' : Doc)
    (_hpath : getFileIdPath doc (normalizePluginOpts opts) ≠ "")
    (hnid : getFileIdPath doc (normalizePluginOpts opts) ≠ "_id")
    (h : docWrite store docs doc opts data uopts fresh now = .ok (store', docs', doc')) :
    ∃ sf, sf ∈ store' ∧ sf.content = data.bytes
      ∧ doc'.get (getFileIdPath doc (normalizePluginOpts opts)) = some (.oid sf.file._id)
      ∧ docs' = saveDoc docs doc' ∧ doc' ∈ docs' := by
  unfold docWrite at h
  cases hcw : docCreateWriteStream doc opts uopts fresh with
  | error e => rw [hcw] at h; simp at h
  | ok ws =>
    rw [hcw] at h
    unfold writeData commitWrite at h
    by_cases hdup : storeHasId store ws.id = true
    · simp [hdup] at h
    · rw [Bool.not_eq_true] at hdup
      simp only [hdup, Bool.false_eq_true, if_false, hnid, if_pos, ne_eq,
        not_false_iff, Except.ok.injEq, Prod.mk.injEq] at h
      obtain ⟨hs, hds, hd⟩ := h
      subst hs
      subst hds
      subst hd
      refine ⟨_, List.mem_append_right _ (List.mem_singleton.mpr rfl), rfl, ?_, rfl, ?_⟩
      · exact Doc.get_set doc _ _
      · exact mem_saveDoc docs _

/-- The identifiers of the file records matching a filename. -/
def matchingIds (store : Store) (fname : String) : List Nat :=
  (store.filter (fun sf => sf.file.filename == fname)).map (fun sf => sf.file._id)

/-- With no `skip` and no (effective) `limit`, the driver cursor yields
the whole result list. -/
theorem applyFindOpts_id (opts : FindOpts) (l : List StoredFile)
    (hlim : opts.limit.getD 0 = 0) (hskip : opts.skip.getD 0 = 0) :
    applyFindOpts opts l = l := by
  unfold applyFindOpts
  cases hl : opts.limit with
  | none => simp [hskip]
  | some n =>
    cases n with
    | zero => simp [hskip]
    | succ m => rw [hl] at hlim; simp at hlim

/-- The delete loop of `deleteByFilename`, run on a cursor snapshot whose
entries live in the store and carry pairwise-distinct ids, deletes exactly
the cursor's records and returns their ids in cursor order. -/
theorem delLoop_spec (cs : List StoredFile) (store : Store)
    (hsub : ∀ c ∈ cs, c ∈ store)
    (hnd : (cs.map (fun c => c.file._id)).Nodup) :
    delLoop cs store
      = .ok (store.filter (fun sf => decide (sf.file._id ∉ cs.map (fun c => c.file._id))),
             cs.map (fun c => c.file._id)) := by
  induction cs generalizing store with
  | nil => simp [delLoop]
  | cons c cs ih =>
    have hc : c ∈ store := hsub c (List.mem_cons_self _ _)
    have hhas : storeHasId store c.file._id = true := by
      simp only [storeHasId, List.any_eq_true]
      exact ⟨c, hc, by simp⟩
    have hnotin : c.file._id ∉ cs.map (fun c => c.file._id) := (List.nodup_cons.mp hnd).1
    have hsub' : ∀ x ∈ cs, x ∈ removeId store c.file._id := by
      intro x hx
      have hxs : x ∈ store := hsub x (List.mem_cons_of_mem _ hx)
      have hne : ¬ (x.file._id = c.file._id) := by
        intro he
        exact hnotin (List.mem_map.mpr ⟨x, hx, he⟩)
      simp [removeId, List.mem_filter, hxs, hne]
    have hnd' : (cs.map (fun c => c.file._id)).Nodup := (List.nodup_cons.mp hnd).2
    simp only [delLoop, deleteById, hhas, if_true]
    rw [ih (removeId store c.file._id) hsub' hnd']
    simp only [removeId, List.filter_filter, List.map_cons, Except.ok.injEq, Prod.mk.injEq]
    refine ⟨List.filter_congr ?_, trivial⟩
    intro sf _
    by_cases h1 : sf.file._id = c.file._id
    · simp [h1]
    · by_cases h2 : sf.file._id ∈ cs.map (fun c => c.file._id) <;> simp [h1, h2]

/-- C5 counterexample: a filename with exactly 2 matching file records,
deleted through `deleteByFilename` with find options carrying `limit: 1`,
deletes only one record and resolves with a single identifier — the
second matching record's id (2) is neither deleted nor returned. -/
theorem c5_limit_cex :
    deleteByFilename
      [⟨{ _id := 1, filename := "a", length := 1, chunkSize := 2, uploadDate := 0 }, [9]⟩,
       ⟨{ _id := 2, filename := "a", length := 1, chunkSize := 2, uploadDate := 1 }, [8]⟩]
      "a" { limit := some 1 }
      = .ok ([⟨{ _id := 2, filename := "a", length := 1, chunkSize := 2, uploadDate := 1 }, [8]⟩],
             [1])
    ∧ (([⟨{ _id := 1, filename := "a", length := 1, chunkSize := 2, uploadDate := 0 }, [9]⟩,
         ⟨{ _id := 2, filename := "a", length := 1, chunkSize := 2, uploadDate := 1 }, [8]⟩] :
          Store).filter (fun sf => sf.file.filename == "a")).length = 2
    ∧ (2 : Nat) ∉ ([1] : List Nat) := by
  refine ⟨?_, by decide, by decide⟩
  rfl

/-- C5 (amended): on a store with pairwise-distinct file ids and find
options that do not restrict the cursor (no `skip`, no effective `limit`),
`deleteByFilename` deletes each of the N records matching the filename —
every deletion going through `deleteById`, which resolves with the id it
was given — and resolves with exactly those N identifiers. -/
theorem c5_delete_all_matching (store : Store) (fname : String) (opts : FindOpts)
    (hnd : (store.map (fun sf => sf.file._id)).Nodup)
    (hlim : opts.limit.getD 0 = 0) (hskip : opts.skip.getD 0 = 0) :
    deleteByFilename store fname opts
      = .ok (store.filter (fun sf => decide (sf.file._id ∉ matchingIds store fname)),
             matchingIds store fname)
    ∧ (matchingIds store fname).length
        = (store.filter (fun sf => sf.file.filename == fname)).length
    ∧ (∀ (s : Store) (fid : Nat), storeHasId s fid = true →
        deleteById s fid = .ok (removeId s fid, fid)) := by
  refine ⟨?_, by simp [matchingIds], ?_⟩
  · unfold deleteByFilename
    have hcur : bucketFind store fname opts
        = store.filter (fun sf => sf.file.filename == fname) := by
      unfold bucketFind
      exact applyFindOpts_id opts _ hlim hskip
    rw [hcur]
    have hsub : ∀ c ∈ store.filter (fun sf => sf.file.filename == fname), c ∈ store :=
      fun c hc => List.mem_of_mem_filter hc
    have hnd' : ((store.filter (fun sf => sf.file.filename == fname)).map
        (fun c => c.file._id)).Nodup :=
      hnd.sublist ((List.filter_sublist store).map (fun c => c.file._id))
    exact delLoop_spec _ store hsub hnd'
  · intro s fid h
    simp [deleteById, h]

/-! ## Witnesses -/

/-- Witness for C1 at a concrete write of three bytes. -/
theorem c1_write_read_roundtrip_witness :
    readFile [⟨{ _id := 7, filename := "sample.txt", length := 3, chunkSize := 261120,
                 uploadDate := 0 }, [1, 2, 3]⟩] { _id := some 7 } = .ok (some [1, 2, 3]) :=
  c1_write_read_roundtrip [] { filename := "sample.txt" } (.stream [1, 2, 3]) 7 0
    [⟨{ _id := 7, filename := "sample.txt", length := 3, chunkSize := 261120,
        uploadDate := 0 }, [1, 2, 3]⟩]
    { _id := 7, filename := "sample.txt", length := 3, chunkSize := 261120, uploadDate := 0 }
    rfl

/-- Witness for the amended C2 at concrete streams and errors. -/
theorem c2_settlement_witness :
    writeFileWrap 3 { filename := "w.txt" } (.werror { message := "stream error" })
        = .settled (.error { message := "stream error" })
    ∧ readFileWrap { filename := some "r.txt" } (.errored { message := "stream error" }) = .ok none
    ∧ readFileWrap {} (.avail [1]) = .error invalidReadOptsErr := by
  have h := c2_settlement { filename := some "r.txt" } { filename := "w.txt" } 3
    { message := "stream error" }
    { _id := 0, filename := "x", length := 0, chunkSize := 0, uploadDate := 0 } [1]
  have h2 := c2_settlement {} { filename := "w.txt" } 3
    { message := "stream error" }
    { _id := 0, filename := "x", length := 0, chunkSize := 0, uploadDate := 0 } [1]
  exact ⟨(h.1 (by decide)).1,
    (h.2.2 { sel := .byName "r.txt" none } rfl).1,
    h2.2.1 invalidReadOptsErr rfl (.avail [1])⟩

/-- Witness for C3 at concrete read/write options. -/
theorem c3_stream_option_errors_witness :
    (∃ e, createReadStream {} = .error e)
    ∧ (∃ rs, createReadStream { _id := some 4 } = .ok rs)
    ∧ (∃ e, createWriteStream 5 { filename := "" } = .error e)
    ∧ (∃ ws, createWriteStream 5 { filename := "a" } = .ok ws ∧ ws.id = 5) := by
  have h1 := c3_stream_option_errors {} { filename := "" } 5
  have h2 := c3_stream_option_errors { _id := some 4 } { filename := "a" } 5
  refine ⟨h1.1.mpr (by decide), h2.2.2.1 (by decide), h1.2.2.2.1.mpr rfl, ?_⟩
  obtain ⟨ws, hws, hid, _⟩ := h2.2.2.2.2.2 (by decide)
  exact ⟨ws, hws, hid⟩

/-- Witness for C4 on a disconnected and a connected collection. -/
theorem c4_create_from_collection_witness :
    createFromCollection { collectionName := "c" } {} = .error (notConnectedErr "c")
    ∧ ∃ b, createFromCollection { collectionName := "c", conn := some { db := some 1 } } {} = .ok b
        ∧ b.readPreference = some ReadPref.primaryPreferred := by
  have h1 := c4_create_from_collection { collectionName := "c" } {}
  have h2 := c4_create_from_collection { collectionName := "c", conn := some { db := some 1 } } {}
  refine ⟨h1.1 rfl, ?_⟩
  obtain ⟨b, hb, hrp, _⟩ := h2.2 1 rfl
  exact ⟨b, hb, hrp⟩

/-- Witness for the amended C5: two matching records, empty find options,
both deleted and both ids returned. -/
theorem c5_delete_all_matching_witness :
    deleteByFilename
      [⟨{ _id := 1, filename := "a", length := 1, chunkSize := 2, uploadDate := 0 }, [9]⟩,
       ⟨{ _id := 2, filename := "a", length := 1, chunkSize := 2, uploadDate := 1 }, [8]⟩]
      "a" {} = .ok ([], [1, 2])
    ∧ (matchingIds
        [⟨{ _id := 1, filename := "a", length := 1, chunkSize := 2, uploadDate := 0 }, [9]⟩,
         ⟨{ _id := 2, filename := "a", length := 1, chunkSize := 2, uploadDate := 1 }, [8]⟩]
        "a").length = 2 := by
  have h := c5_delete_all_matching
    [⟨{ _id := 1, filename := "a", length := 1, chunkSize := 2, uploadDate := 0 }, [9]⟩,
     ⟨{ _id := 2, filename := "a", length := 1, chunkSize := 2, uploadDate := 1 }, [8]⟩]
    "a" {} (by decide) rfl rfl
  exact ⟨h.1.trans (by decide), h.2.1.trans (by decide)⟩

/-- Witness for C6 on a record with id 3, writing twice. -/
theorem c6_fileid_id_reuse_collides_witness :
    ∃ sf, docWrite [] [] ⟨3, ["_id"], []⟩ { fileId := some "_id" } (.buffer [4, 5]) {} 99 0
        = .ok ([sf], [⟨3, ["_id"], []⟩], ⟨3, ["_id"], []⟩)
      ∧ sf.file._id = 3 ∧ sf.content = [4, 5]
      ∧ docWrite [sf] [⟨3, ["_id"], []⟩] ⟨3, ["_id"], []⟩ { fileId := some "_id" }
          (.buffer [6]) {} 98 1 = .error (dupKeyErr 3)
      ∧ (dupKeyErr 3).code = 11000
      ∧ (dupKeyErr 3).message = "E11000 duplicate key error dup key: " ++ toString (3 : Nat) :=
  c6_fileid_id_reuse_collides [] [] ⟨3, ["_id"], []⟩ { fileId := some "_id" }
    (.buffer [4, 5]) (.buffer [6]) {} {} 99 98 0 1 rfl (by decide) (by decide) rfl

/-- Witness for the amended C7: a filename function, a populated filename
field, and the id-based fallback. -/
theorem c7_filename_resolution_witness :
    getGridFSFilename ⟨6, [], []⟩
        { filename := some (.fn (fun d => toString d._id ++ ".import")) }
      = jsTrim (toString (6 : Nat) ++ ".import")
    ∧ getGridFSFilename ⟨6, ["filename"], [("filename", .str "x.txt")]⟩ {} = jsTrim "x.txt"
    ∧ getGridFSFilename ⟨6, [], []⟩ {} = toString (6 : Nat) ++ ".file" := by
  have h1 := c7_filename_resolution ⟨6, [], []⟩
    { filename := some (.fn (fun d => toString d._id ++ ".import")) }
  have h2 := c7_filename_resolution ⟨6, ["filename"], [("filename", .str "x.txt")]⟩ {}
  have h3 := c7_filename_resolution ⟨6, [], []⟩ {}
  exact ⟨h1.1 _ rfl, h2.2.1 rfl (by decide), h3.2.2 rfl (by decide)⟩

/-- Witness for C8 on a record with a `fileId` schema path. -/
theorem c8_write_sets_fileid_and_saves_witness :
    ∃ sf, sf ∈ [(⟨{ _id := 9, filename := "f.txt", length := 1, chunkSize := 261120,
                     uploadDate := 5 }, [7]⟩ : StoredFile)]
      ∧ sf.content = [7]
      ∧ Doc.get ⟨4, ["_id", "fileId", "filename"],
            [("fileId", .oid 9), ("filename", .str "f.txt")]⟩ "fileId"
          = some (.oid sf.file._id)
      ∧ ([⟨4, ["_id", "fileId", "filename"], [("fileId", .oid 9), ("filename", .str "f.txt")]⟩] :
            DocStore)
          = saveDoc []
              ⟨4, ["_id", "fileId", "filename"], [("fileId", .oid 9), ("filename", .str "f.txt")]⟩
      ∧ (⟨4, ["_id", "fileId", "filename"], [("fileId", .oid 9), ("filename", .str "f.txt")]⟩ : Doc)
          ∈ ([⟨4, ["_id", "fileId", "filename"],
               [("fileId", .oid 9), ("filename", .str "f.txt")]⟩] : DocStore) :=
  c8_write_sets_fileid_and_saves [] []
    ⟨4, ["_id", "fileId", "filename"], [("filename", .str "f.txt")]⟩
    {} (.stream [7]) {} 9 5
    [⟨{ _id := 9, filename := "f.txt", length := 1, chunkSize := 261120, uploadDate := 5 }, [7]⟩]
    [⟨4, ["_id", "fileId", "filename"], [("fileId", .oid 9), ("filename", .str "f.txt")]⟩]
    ⟨4, ["_id", "fileId", "filename"], [("fileId", .oid 9), ("filename", .str "f.txt")]⟩
    (by decide) (by decide) rfl

/-- Witness for C9 on a four-byte write. -/
theorem c9_write_frame_witness :
    ∃ sf, sf ∈ [(⟨{ _id := 11, filename := "s.txt", length := 4, chunkSize := 261120,
                    uploadDate := 42 }, [1, 2, 3, 4]⟩ : StoredFile)]
      ∧ sf.file._id = 11 ∧ sf.content = [1, 2, 3, 4]
      ∧ (some 4 : Option Nat) = some sf.file.length
      ∧ (some 261120 : Option Nat) = some sf.file.chunkSize
      ∧ (some 42 : Option Nat) = some sf.file.uploadDate
      ∧ (11 : Nat) = 11 ∧ "s.txt" = "s.txt"
      ∧ ([] : List (String × String)) = [] ∧ (none : Option (List String)) = none
      ∧ (none : Option String) = none ∧ (some "x" : Option String) = some "x" :=
  c9_write_frame [] { _id := 11, filename := "s.txt", md5 := some "x" } [1, 2, 3, 4] 0 42
    [⟨{ _id := 11, filename := "s.txt", length := 4, chunkSize := 261120,
        uploadDate := 42 }, [1, 2, 3, 4]⟩]
    { _id := 11, filename := "s.txt", length := some 4, chunkSize := some 261120,
      uploadDate := some 42, md5 := some "x", isNew := false }
    rfl

end GridFS
